import Mathlib

/-
  Verification development for the syscall dispatch and IPC core found in
  src/kernel/src/syscall.rs and the log-server LogString writer found in
  src/examples/log-server/src/log_string.rs.

  The definitions below are a shallow embedding of those source files.
  Operations that live in external collaborators (services.rs, server.rs,
  mem.rs, the arch layer) are modelled from the specification and marked
  with a doc comment beginning "Modelled from the spec".
-/

namespace XK

/-- Error kinds of the syscall layer (xous_kernel::Error), as used by syscall.rs. -/
inductive Err
  | ServerNotFound
  | ServerQueueFull
  | ProcessNotFound
  | ThreadNotAvailable
  | OutOfMemory
  | BadAddress
  | BadAlignment
  | InternalError
deriving DecidableEq, Repr

/-- A memory range: base address and size, mirroring xous MemoryRange. -/
structure MemRange where
  addr : Nat
  size : Nat
deriving DecidableEq, Repr

/-- Page size used by the kernel. The source masks with 0xfff; for a power of
two page size this mask test equals taking the remainder modulo 0x1000, which
is how the alignment checks are written below. -/
def PAGE_SIZE : Nat := 0x1000

/-- Machine word modulus: usize arithmetic wraps modulo 2 ^ 32 in release
builds, which is how overflow and underflow become observable. -/
def WORD : Nat := 2 ^ 32

/-- Per process heap metadata, mirroring the fields of the arch process inner
structure used by the IncreaseHeap and DecreaseHeap arms of handle_inner. -/
structure HeapInner where
  mem_heap_base : Nat
  mem_heap_size : Nat
  mem_heap_max : Nat
deriving DecidableEq, Repr

/-- Embedding of the SysCall IncreaseHeap arm of handle_inner
(syscall.rs lines 503 to 523). The checks and the mutation follow the source
order: alignment, bound check, heap_size update, then mm.reserve_range.
The reserveOk flag stands for the outcome of mm.reserve_range, an external
memory manager call; modelled from the spec, it may fail with OutOfMemory
when frames are exhausted. An error pairs with the state at the point the
error escaped, exactly as the question-mark operator leaves prior mutations
in place. -/
def increase_heap (reserveOk : Bool) (delta : Nat) (hp : HeapInner) :
    Except Err MemRange × HeapInner :=
  if delta % 0x1000 ≠ 0 then (.error .BadAlignment, hp)
  else if (hp.mem_heap_size + delta) % WORD > hp.mem_heap_max then
    (.error .OutOfMemory, hp)
  else
    let start := (hp.mem_heap_base + hp.mem_heap_size) % WORD
    let hp2 := { hp with mem_heap_size := (hp.mem_heap_size + delta) % WORD }
    if reserveOk then (.ok ⟨start, delta⟩, hp2)
    else (.error .OutOfMemory, hp2)

/-- Embedding of the SysCall DecreaseHeap arm of handle_inner
(syscall.rs lines 524 to 544). Note that the bound check is the same
expression as in IncreaseHeap (mem_heap_size + delta > mem_heap_max); the
subtraction mem_heap_size -= delta is then performed with wrapping machine
arithmetic. The page unmap loop only touches the memory manager, never the
heap fields, so it is not modelled here. -/
def decrease_heap (delta : Nat) (hp : HeapInner) : Except Err Unit × HeapInner :=
  if delta % 0x1000 ≠ 0 then (.error .BadAlignment, hp)
  else if (hp.mem_heap_size + delta) % WORD > hp.mem_heap_max then
    (.error .OutOfMemory, hp)
  else
    (.ok (), { hp with mem_heap_size := (hp.mem_heap_size + (WORD - delta % WORD)) % WORD })

/-- C3: the claim states that a successful DecreaseHeap can never drive
heap_size below zero. The source checks mem_heap_size + delta > mem_heap_max
(the IncreaseHeap bound) instead of delta > mem_heap_size, so a call with
delta larger than the current heap size passes the check, returns
successfully, and wraps mem_heap_size around the machine word: starting from
heap_size 0x1000 and heap_max 0x10000, DecreaseHeap 0x2000 succeeds and
leaves heap_size equal to 2 ^ 32 - 0x1000, violating
0 ≤ heap_size ≤ heap_max. This theorem evaluates the embedded code at that
failing input. -/
theorem c3_decrease_heap_underflows :
    (decrease_heap 0x2000 ⟨0x20000000, 0x1000, 0x10000⟩).1 = .ok () ∧
    (decrease_heap 0x2000 ⟨0x20000000, 0x1000, 0x10000⟩).2.mem_heap_size = WORD - 0x1000 ∧
    (decrease_heap 0x2000 ⟨0x20000000, 0x1000, 0x10000⟩).2.mem_heap_size >
      (⟨0x20000000, 0x1000, 0x10000⟩ : HeapInner).mem_heap_max := by
  refine ⟨rfl, rfl, ?_⟩
  decide

/-- C5 counterexample: the claim states that every IncreaseHeap error leaves
heap_size unchanged. With an aligned delta that passes the bound check but a
reserve_range failure, the call returns OutOfMemory with heap_size already
increased by delta: the error is returned after the mutation. -/
theorem c5_error_mutates_heap :
    (increase_heap false 0x1000 ⟨0x20000000, 0, 0x10000⟩).1 = .error .OutOfMemory ∧
    (increase_heap false 0x1000 ⟨0x20000000, 0, 0x10000⟩).2.mem_heap_size = 0x1000 ∧
    (⟨0x20000000, 0, 0x10000⟩ : HeapInner).mem_heap_size ≠ 0x1000 := by
  refine ⟨rfl, ?_, by decide⟩
  decide

/-- C5 amended: a BadAlignment error, or an OutOfMemory error from the heap
bound precondition check, leaves the heap state unchanged; an OutOfMemory
error arising in reserve_range after the checks leaves heap_size already
increased by delta. -/
theorem c5_increase_heap_error_paths (reserveOk : Bool) (delta : Nat) (hp : HeapInner) :
    (delta % 0x1000 ≠ 0 →
      increase_heap reserveOk delta hp = (.error .BadAlignment, hp)) ∧
    (delta % 0x1000 = 0 → (hp.mem_heap_size + delta) % WORD > hp.mem_heap_max →
      increase_heap reserveOk delta hp = (.error .OutOfMemory, hp)) ∧
    (delta % 0x1000 = 0 → (hp.mem_heap_size + delta) % WORD ≤ hp.mem_heap_max →
      reserveOk = false →
      increase_heap reserveOk delta hp =
        (.error .OutOfMemory, { hp with mem_heap_size := (hp.mem_heap_size + delta) % WORD })) := by
  refine ⟨?_, ?_, ?_⟩
  · intro h
    simp [increase_heap, h]
  · intro h hbound
    simp [increase_heap, h, hbound]
  · intro h hbound hres
    subst hres
    simp [increase_heap, h, Nat.not_lt.mpr hbound]

/-- C5 witness: the amended theorem applied at a concrete failing
reserve_range call. -/
theorem c5_increase_heap_error_paths_witness :
    increase_heap false 0x1000 ⟨0x20000000, 0, 0x10000⟩ =
      (.error .OutOfMemory, ⟨0x20000000, (0 + 0x1000) % WORD, 0x10000⟩) :=
  (c5_increase_heap_error_paths false 0x1000 ⟨0x20000000, 0, 0x10000⟩).2.2
    (by decide) (by decide) rfl

/-- A memory message buffer as the log server sees it: the raw bytes of the
buffer together with the valid field of the xous MemoryMessage. Modelled from
the spec for the field types: valid is an optional byte count (the spec gives
the layout valid: Option u32, with no non-zero restriction). -/
structure MsgBuf where
  data : List Nat
  valid : Option Nat
deriving DecidableEq, Repr

/-- Embedding of the LogString state: the backing byte slice, the current
written length, and the message valid field that write_str keeps updated
(log_string.rs lines 4 to 9). The s field of the source is the prefix view
raw_slice take len and is determined by the other fields, so it is not
duplicated here. -/
structure LogString where
  raw_slice : List Nat
  len : Nat
  msg_len : Option Nat
deriving DecidableEq, Repr

/-- Embedding of LogString::from_message (log_string.rs lines 12 to 27): the
starting length is the message valid field, or zero when absent; no check is
made against the buffer length. -/
def from_message (m : MsgBuf) : LogString :=
  { raw_slice := m.data
    len := m.valid.getD 0
    msg_len := m.valid }

/-- The byte copy loop of write_str (log_string.rs lines 38 to 41):
raw_slice at position len receives each byte and len advances. An index at or
past the slice length is a Rust index panic, modelled as Option.none. -/
def wsLoop : List Nat → Nat → List Nat → Option (List Nat × Nat)
  | raw, len, [] => some (raw, len)
  | raw, len, c :: cs =>
    if len < raw.length then wsLoop (raw.set len c) (len + 1) cs else Option.none

/-- Embedding of LogString::write_str (log_string.rs lines 37 to 47): copy the
bytes, refresh the prefix view, store Some of the new length into the message
valid field, and return Ok. The Bool component is true exactly when the fmt
result is Ok, which the source returns unconditionally; Option.none models an
index panic inside the loop. The source wraps the new length in
MemorySize::new followed by unwrap; the spec gives valid the type Option u32,
so this wrap is modelled as Option.some. -/
def LogString.write_str (ls : LogString) (s : List Nat) : Option (LogString × Bool) :=
  match wsLoop ls.raw_slice ls.len s with
  | some (raw2, len2) => some ({ raw_slice := raw2, len := len2, msg_len := some len2 }, true)
  | Option.none => Option.none

theorem wsLoop_isSome (s : List Nat) : ∀ raw len,
    (wsLoop raw len s).isSome = true ↔ (s = [] ∨ len + s.length ≤ raw.length) := by
  induction s with
  | nil =>
    intro raw len
    simp [wsLoop]
  | cons c cs ih =>
    intro raw len
    simp only [wsLoop, List.length_cons]
    by_cases h : len < raw.length
    · rw [if_pos h, ih]
      simp only [List.length_set]
      constructor
      · intro hh
        rcases hh with rfl | hle
        · right
          simp only [List.length_nil]
          omega
        · right
          omega
      · intro hh
        rcases hh with hc | hle
        · exact absurd hc (List.cons_ne_nil c cs)
        · right
          omega
    · rw [if_neg h]
      simp only [Option.isSome_none, Bool.false_eq_true, false_iff]
      intro hh
      rcases hh with hc | hle
      · exact absurd hc (List.cons_ne_nil c cs)
      · omega

theorem wsLoop_result (s : List Nat) : ∀ raw len raw2 len2,
    wsLoop raw len s = some (raw2, len2) →
    len2 = len + s.length ∧ raw2.length = raw.length := by
  induction s with
  | nil =>
    intro raw len raw2 len2 h
    simp only [wsLoop, Option.some.injEq, Prod.mk.injEq] at h
    simp [← h.1, ← h.2]
  | cons c cs ih =>
    intro raw len raw2 len2 h
    simp only [wsLoop] at h
    by_cases hlt : len < raw.length
    · rw [if_pos hlt] at h
      have := ih (raw.set len c) (len + 1) raw2 len2 h
      simp only [List.length_set] at this
      simp only [List.length_cons]
      constructor
      · omega
      · exact this.2
    · rw [if_neg hlt] at h
      exact absurd h (by simp)

/-- C9 counterexample: the claim states that write_str is panic free exactly
when the previous written length plus the input length fits in the buffer.
from_message does not validate the valid field against the buffer length, so
a message whose valid field exceeds its buffer yields a LogString whose len
already exceeds raw_slice.length; writing an empty string then copies
nothing, panics nowhere, and returns Ok, although the stated precondition
8 + 0 ≤ 4 fails. -/
theorem c9_empty_write_escapes_precondition :
    ((from_message ⟨[0, 0, 0, 0], some 8⟩).write_str []).isSome = true ∧
    ¬((from_message ⟨[0, 0, 0, 0], some 8⟩).len + ([] : List Nat).length ≤
      (from_message ⟨[0, 0, 0, 0], some 8⟩).raw_slice.length) := by
  constructor
  · rfl
  · decide

/-- C9 amended: for every LogString built by from_message and every byte
string s, write_str never returns Err and, when it does not panic, sets the
message valid field to Some of the previous written length plus the length of
s; it is panic free precisely when s is empty or the previous written length
plus the length of s is at most the buffer length. For a LogString whose
initial length does not exceed its buffer (the sane from_message outcome) and
a non-empty s this is exactly the claimed precondition. -/
theorem c9_write_str_spec (m : MsgBuf) (s : List Nat) :
    (∀ out, (from_message m).write_str s = some out →
      out.2 = true ∧ out.1.msg_len = some ((from_message m).len + s.length) ∧
      out.1.raw_slice.length = (from_message m).raw_slice.length) ∧
    (((from_message m).write_str s).isSome = true ↔
      (s = [] ∨ (from_message m).len + s.length ≤ (from_message m).raw_slice.length)) := by
  constructor
  · intro out hout
    unfold LogString.write_str at hout
    cases hws : wsLoop (from_message m).raw_slice (from_message m).len s with
    | none =>
      rw [hws] at hout
      exact absurd hout (by simp)
    | some pr =>
      rw [hws] at hout
      obtain ⟨raw2, len2⟩ := pr
      have hres := wsLoop_result s _ _ _ _ hws
      simp only [Option.some.injEq] at hout
      rw [← hout]
      exact ⟨rfl, by simp [hres.1], by simp [hres.2]⟩
  · rw [← wsLoop_isSome]
    unfold LogString.write_str
    cases hws : wsLoop (from_message m).raw_slice (from_message m).len s <;> simp

/-- C9 witness: the amended theorem applied to a concrete fresh message and a
two byte write. -/
theorem c9_write_str_spec_witness :
    ((from_message ⟨[0, 0, 0, 0], Option.none⟩).write_str [65, 66]).isSome = true ∧
    (((from_message ⟨[0, 0, 0, 0], Option.none⟩).write_str [65, 66]).get rfl).1.msg_len = some 2 := by
  have h := c9_write_str_spec ⟨[0, 0, 0, 0], Option.none⟩ [65, 66]
  refine ⟨(h.2).mpr (by right; decide), ?_⟩
  have h2 := (h.1 (((from_message ⟨[0, 0, 0, 0], Option.none⟩).write_str [65, 66]).get rfl))
    (by rfl)
  exact h2.2.1

/-- The single slot SWITCHTO_CALLER record (syscall.rs line 11): the pid and
tid of the thread that issued the current SwitchTo, or empty. -/
abbrev Slot := Option (Nat × Nat)

/-- The syscalls of handle_inner as seen by the SWITCHTO_CALLER slot. Each
constructor names the source arm that touches the slot: switchTo asserts the
slot empty and fills it (lines 545 to 560), yieldCall takes it (lines 565 to
582), returnToParentI takes it (lines 583 to 594), waitEvent clears it
(line 599), receiveParked is the parking path of receive_message that clears
it (line 394), sendBlockingQueued is the baremetal blocking enqueue path of
send_message that clears it (line 182), and other covers every arm that
leaves the slot untouched. -/
inductive SlotCall
  | switchTo (p : Nat) (t : Nat)
  | yieldCall
  | returnToParentI
  | waitEvent
  | receiveParked
  | sendBlockingQueued
  | other
deriving DecidableEq, Repr

/-- Panic outcomes of the slot handling code: the SwitchTo assertion that the
slot is empty, and the expect calls of Yield and ReturnToParentI that demand
a stored caller. -/
inductive SlotPanic
  | switchToTwice
  | noParent
deriving DecidableEq, Repr

/-- One syscall acting on the slot. The second component of the result is the
pair the call took out of the slot and used (Yield activates it as the thread
to run; ReturnToParentI installs it as the isr return pair). -/
def slotStep (c : SlotCall) (s : Slot) : Except SlotPanic (Slot × Option (Nat × Nat)) :=
  match c with
  | .switchTo p t =>
    match s with
    | Option.none => .ok (some (p, t), Option.none)
    | some _ => .error .switchToTwice
  | .yieldCall =>
    match s with
    | some pr => .ok (Option.none, some pr)
    | Option.none => .error .noParent
  | .returnToParentI =>
    match s with
    | some pr => .ok (Option.none, some pr)
    | Option.none => .error .noParent
  | .waitEvent => .ok (Option.none, Option.none)
  | .receiveParked => .ok (Option.none, Option.none)
  | .sendBlockingQueued => .ok (Option.none, Option.none)
  | .other => .ok (s, Option.none)

/-- Run a sequence of syscalls over the slot, stopping at the first panic. -/
def slotRun (s : Slot) : List SlotCall → Except SlotPanic Slot
  | [] => .ok s
  | c :: cs =>
    match slotStep c s with
    | .error e => .error e
    | .ok (s2, _) => slotRun s2 cs

/-- A call clears the slot when it leaves it empty on every success path. -/
def SlotCall.clearsSlot : SlotCall → Bool
  | .yieldCall => true
  | .returnToParentI => true
  | .waitEvent => true
  | .receiveParked => true
  | .sendBlockingQueued => true
  | _ => false

/-- The spacing discipline of the claim, tracked by a pending flag: pending
is true when a SwitchTo has happened with no clearing call since. A sequence
is well spaced when no SwitchTo arrives while pending. -/
def wellSpacedFrom : Bool → List SlotCall → Bool
  | _, [] => true
  | pending, c :: cs =>
    match c with
    | .switchTo _ _ => if pending then false else wellSpacedFrom true cs
    | _ => wellSpacedFrom (pending && !c.clearsSlot) cs

def wellSpaced (cs : List SlotCall) : Bool := wellSpacedFrom false cs

theorem slotRun_no_double_switch (cs : List SlotCall) : ∀ (pending : Bool) (s : Slot),
    wellSpacedFrom pending cs = true → (pending = false → s = Option.none) →
    slotRun s cs ≠ .error .switchToTwice := by
  induction cs with
  | nil =>
    intro pending s _ _
    simp [slotRun]
  | cons c cs ih =>
    intro pending s hws hinv
    cases c with
    | switchTo p t =>
      simp only [wellSpacedFrom] at hws
      cases pending with
      | true => simp at hws
      | false =>
        have hs := hinv rfl
        subst hs
        rw [if_neg (by simp)] at hws
        simp only [slotRun, slotStep]
        exact ih true (some (p, t)) hws (by intro h; cases h)
    | yieldCall =>
      simp only [wellSpacedFrom, SlotCall.clearsSlot, Bool.not_true, Bool.and_false] at hws
      cases s with
      | none => simp [slotRun, slotStep]
      | some pr =>
        simp only [slotRun, slotStep]
        exact ih false Option.none hws (fun _ => rfl)
    | returnToParentI =>
      simp only [wellSpacedFrom, SlotCall.clearsSlot, Bool.not_true, Bool.and_false] at hws
      cases s with
      | none => simp [slotRun, slotStep]
      | some pr =>
        simp only [slotRun, slotStep]
        exact ih false Option.none hws (fun _ => rfl)
    | waitEvent =>
      simp only [wellSpacedFrom, SlotCall.clearsSlot, Bool.not_true, Bool.and_false] at hws
      simp only [slotRun, slotStep]
      exact ih false Option.none hws (fun _ => rfl)
    | receiveParked =>
      simp only [wellSpacedFrom, SlotCall.clearsSlot, Bool.not_true, Bool.and_false] at hws
      simp only [slotRun, slotStep]
      exact ih false Option.none hws (fun _ => rfl)
    | sendBlockingQueued =>
      simp only [wellSpacedFrom, SlotCall.clearsSlot, Bool.not_true, Bool.and_false] at hws
      simp only [slotRun, slotStep]
      exact ih false Option.none hws (fun _ => rfl)
    | other =>
      simp only [wellSpacedFrom, SlotCall.clearsSlot, Bool.not_false, Bool.and_true] at hws
      simp only [slotRun, slotStep]
      exact ih pending s hws hinv

/-- C8: starting from the empty slot, any well spaced sequence of syscalls
(every SwitchTo separated from the previous one by a clearing call) never
trips the SwitchTo assertion; a SwitchTo from the empty slot records the
caller pair; and a Yield finding a stored pair takes it out and uses it as
the pair to activate. -/
theorem c8_switchto_slot_discipline (cs : List SlotCall) (hws : wellSpaced cs = true) :
    slotRun Option.none cs ≠ .error .switchToTwice ∧
    (∀ p t, slotStep (.switchTo p t) Option.none = .ok (some (p, t), Option.none)) ∧
    (∀ p t, slotStep .yieldCall (some (p, t)) = .ok (Option.none, some (p, t))) :=
  ⟨slotRun_no_double_switch cs false Option.none hws (fun _ => rfl),
   fun _ _ => rfl, fun _ _ => rfl⟩

/-- C8 witness: the discipline theorem applied to a concrete sequence with
two SwitchTo calls separated by a Yield. -/
theorem c8_switchto_slot_discipline_witness :
    slotRun Option.none
      [SlotCall.switchTo 1 2, SlotCall.yieldCall, SlotCall.switchTo 3 4] ≠
      Except.error SlotPanic.switchToTwice :=
  (c8_switchto_slot_discipline
    [SlotCall.switchTo 1 2, SlotCall.yieldCall, SlotCall.switchTo 3 4] (by decide)).1

/-- Modelled from the spec: the arch constant bounding user space virtual
addresses. The exact value lives in the external arch layer; the claims only
compare addresses against it, so any fixed value is faithful. -/
def USER_AREA_END : Nat := 0xfe000000

/-- The memory manager state seen by MapMemory: the installed mappings, plus
a flag standing for whether the external allocator can satisfy the request.
Modelled from the spec: map_range fails with OutOfMemory when frames are
exhausted. -/
structure MMState where
  mapped : List (Nat × MemRange)
  mapOk : Bool
deriving DecidableEq, Repr

/-- Modelled from the spec: mm.map_range allocates page frames and installs
page table entries for pid, returning the mapped range; when virt is absent
the address space is reserved at an allocator chosen address (fixed here,
since no claim inspects it). -/
def map_range (virt : Option Nat) (size : Nat) (pid : Nat) (mm : MMState) :
    Except Err (MemRange × MMState) :=
  if mm.mapOk then
    let addr := virt.getD 0x40000000
    .ok (⟨addr, size⟩, { mm with mapped := (pid, ⟨addr, size⟩) :: mm.mapped })
  else .error .OutOfMemory

/-- Embedding of the SysCall MapMemory arm of handle_inner (syscall.rs lines
423 to 486). The address check runs first: unless the caller is pid 1, a
present virt at or above USER_AREA_END is BadAddress; otherwise a size that
is not a page multiple is BadAlignment; only then is map_range invoked. The
zeroing and hand_page_to_user loop touch page contents and permissions only,
never the mapping list, and are not modelled. -/
def map_memory (pid : Nat) (virt : Option Nat) (size : Nat) (mm : MMState) :
    Except Err MemRange × MMState :=
  if pid ≠ 1 ∧ (virt.map (fun v => decide (USER_AREA_END ≤ v))).getD false = true then
    (.error .BadAddress, mm)
  else if size % PAGE_SIZE ≠ 0 then
    (.error .BadAlignment, mm)
  else
    match map_range virt size pid mm with
    | .error e => (.error e, mm)
    | .ok (r, mm2) => (.ok r, mm2)

/-- C7 counterexample: the claim asserts both that a high address gives
BadAddress and that a misaligned size gives BadAlignment, but the two checks
overlap and the source resolves the overlap in favour of BadAddress: a call
from pid 2 at an address above USER_AREA_END with the misaligned size 0x1001
returns BadAddress, so the claimed misaligned size implication is false
there. -/
theorem c7_badaddress_wins_overlap :
    (map_memory 2 (some (USER_AREA_END + 0x1000)) 0x1001 ⟨[], true⟩).1 =
      .error .BadAddress ∧
    (map_memory 2 (some (USER_AREA_END + 0x1000)) 0x1001 ⟨[], true⟩).1 ≠
      .error .BadAlignment := by
  constructor
  · rfl
  · intro h
    have hinj : Err.BadAddress = Err.BadAlignment := Except.error.inj h
    cases hinj

/-- C7 amended: the address check runs first, so for a caller other than
pid 1 a present virt at or above USER_AREA_END yields BadAddress with no
mapping installed, even when the size is also misaligned; when the address
check passes, a size that is not a page multiple yields BadAlignment with no
mapping installed; when both checks pass and the allocator succeeds the
result is the mapped MemoryRange. -/
theorem c7_map_memory_checks (pid : Nat) (virt : Option Nat) (size : Nat) (mm : MMState) :
    (∀ v, pid ≠ 1 → virt = some v → USER_AREA_END ≤ v →
      map_memory pid virt size mm = (.error .BadAddress, mm)) ∧
    (¬(pid ≠ 1 ∧ (virt.map (fun v => decide (USER_AREA_END ≤ v))).getD false = true) →
      size % PAGE_SIZE ≠ 0 →
      map_memory pid virt size mm = (.error .BadAlignment, mm)) ∧
    (¬(pid ≠ 1 ∧ (virt.map (fun v => decide (USER_AREA_END ≤ v))).getD false = true) →
      size % PAGE_SIZE = 0 → mm.mapOk = true →
      map_memory pid virt size mm =
        (.ok ⟨virt.getD 0x40000000, size⟩,
          { mm with mapped := (pid, ⟨virt.getD 0x40000000, size⟩) :: mm.mapped })) := by
  refine ⟨?_, ?_, ?_⟩
  · intro v hpid hv hle
    subst hv
    simp [map_memory, hpid, hle]
  · intro hnot hsize
    simp [map_memory, hnot, hsize]
  · intro hnot hsize hok
    simp [map_memory, hnot, hsize, map_range, hok]

/-- C7 witness: the amended theorem applied at a concrete rejected address
with a misaligned size, at a concrete misaligned size, and at a concrete
successful mapping. -/
theorem c7_map_memory_checks_witness :
    map_memory 2 (some (USER_AREA_END + 0x1000)) 0x1001 ⟨[], true⟩ =
      (.error .BadAddress, ⟨[], true⟩) ∧
    map_memory 2 (some 0x20000000) 0x1001 ⟨[], true⟩ =
      (.error .BadAlignment, ⟨[], true⟩) ∧
    map_memory 2 (some 0x20000000) 0x2000 ⟨[], true⟩ =
      (.ok ⟨0x20000000, 0x2000⟩, ⟨[(2, ⟨0x20000000, 0x2000⟩)], true⟩) :=
  ⟨(c7_map_memory_checks 2 (some (USER_AREA_END + 0x1000)) 0x1001 ⟨[], true⟩).1
      (USER_AREA_END + 0x1000) (by decide) rfl (by omega),
   (c7_map_memory_checks 2 (some 0x20000000) 0x1001 ⟨[], true⟩).2.1
      (by decide) (by decide),
   (c7_map_memory_checks 2 (some 0x20000000) 0x2000 ⟨[], true⟩).2.2
      (by decide) (by decide) rfl⟩

/-- Scalar message payload (xous ScalarMessage): an id and four words. -/
structure ScalarArgs where
  id : Nat
  a : Nat
  b : Nat
  c : Nat
  d : Nat
deriving DecidableEq, Repr

/-- Memory message payload (xous MemoryMessage): id, buffer, offset, valid. -/
structure MemMsg where
  id : Nat
  buf : MemRange
  off : Option Nat
  valid : Option Nat
deriving DecidableEq, Repr

/-- The xous Message variants as matched throughout syscall.rs. -/
inductive Message
  | scalar (args : ScalarArgs)
  | blockingScalar (args : ScalarArgs)
  | move (m : MemMsg)
  | borrow (m : MemMsg)
  | mutableBorrow (m : MemMsg)
deriving DecidableEq, Repr

/-- Modelled from the spec: Message::is_blocking of the external xous_kernel
crate is true for BlockingScalar, Borrow and MutableBorrow, false for Scalar
and Move (spec section 4.3 step 2). -/
def Message.is_blocking : Message → Bool
  | .blockingScalar _ => true
  | .borrow _ => true
  | .mutableBorrow _ => true
  | _ => false

/-- The predicate the C2 claim uses for messages that transfer memory:
Move, Borrow and MutableBorrow. This is a claim side definition, written from
the words of the spec, for comparison with the code behaviour. -/
def Message.carries_memory : Message → Bool
  | .move _ => true
  | .borrow _ => true
  | .mutableBorrow _ => true
  | _ => false

/-- The SenderID of server.rs: connection id plus outstanding sender index.
The source packs this pair into one opaque word; the claims only read the
two components, so the pair itself is the faithful model. -/
structure SenderID where
  cid : Nat
  idx : Nat
deriving DecidableEq, Repr

/-- A message envelope as delivered to a receiver (xous MessageEnvelope). -/
structure MessageEnvelope where
  sender : SenderID
  body : Message
deriving DecidableEq, Repr

/-- The WaitingMessage records of server.rs as matched by the return paths in
syscall.rs. -/
inductive WaitingMessage
  | scalarMessage (pid : Nat) (tid : Nat)
  | borrowedMemory (pid : Nat) (tid : Nat) (serverAddr : Nat) (clientAddr : Nat) (len : Nat)
  | movedMemory
  | forgetMemory (range : MemRange)
  | nothing
deriving DecidableEq, Repr

/-- A message queued on the server FIFO: the sender process and thread, the
translated message, and the remembered client address. -/
structure QueuedMsg where
  pid : Nat
  tid : Nat
  msg : Message
  clientAddr : Option Nat
deriving DecidableEq, Repr

/-- The server endpoint: host pid, parked receiver list (FIFO, head next),
message queue with its capacity, and the outstanding sender table, where the
slot at list position p holds the record for sender index p + 1 (indices are
dense and non zero; index 0 means no record). Structure modelled from the
spec section 4.2; the syscall layer only drives it through the operations
below. -/
structure Server where
  pid : Nat
  parked : List Nat
  queue : List QueuedMsg
  queueCap : Nat
  slots : List (Option WaitingMessage)
deriving DecidableEq, Repr

/-- Modelled from the spec: pop a parked receiver, FIFO. -/
def take_available_thread (srv : Server) : Option (Nat × Server) :=
  match srv.parked with
  | [] => Option.none
  | t :: rest => some (t, { srv with parked := rest })

/-- Modelled from the spec: put a thread back on the parked receiver list
after a failure of a subsequent step. -/
def return_available_thread (tid : Nat) (srv : Server) : Server :=
  { srv with parked := tid :: srv.parked }

/-- Modelled from the spec: enqueue the current thread as a parked receiver. -/
def park_thread (tid : Nat) (srv : Server) : Server :=
  { srv with parked := srv.parked ++ [tid] }

/-- First free position of the outstanding sender table. -/
def findFree : List (Option WaitingMessage) → Option Nat
  | [] => Option.none
  | Option.none :: _ => some 0
  | some _ :: rest => (findFree rest).map (· + 1)

/-- The record stored for a sender. The message passed in is the translated
message, so a memory buffer address is the server side address; the client
side address is remembered separately. Modelled from the spec section 4.2 and
the WaitingMessage variants matched by syscall.rs. -/
def recordFor (pid tid : Nat) (msg : Message) (clientAddr : Option Nat) : WaitingMessage :=
  match msg with
  | .scalar _ => .scalarMessage pid tid
  | .blockingScalar _ => .scalarMessage pid tid
  | .move _ => .movedMemory
  | .borrow m => .borrowedMemory pid tid m.buf.addr (clientAddr.getD 0) m.buf.size
  | .mutableBorrow m => .borrowedMemory pid tid m.buf.addr (clientAddr.getD 0) m.buf.size

/-- Modelled from the spec: allocate a slot in the outstanding sender table;
the returned index is dense and non zero; fails ServerQueueFull when no slot
is available. -/
def remember_server_message (pid tid : Nat) (msg : Message) (clientAddr : Option Nat)
    (srv : Server) : Except Err (Nat × Server) :=
  match findFree srv.slots with
  | Option.none => .error .ServerQueueFull
  | some p =>
    .ok (p + 1, { srv with slots := srv.slots.set p (some (recordFor pid tid msg clientAddr)) })

/-- Modelled from the spec: push a message onto the server FIFO; fails
ServerQueueFull when the queue is at capacity. -/
def queue_server_message (pid tid : Nat) (msg : Message) (clientAddr : Option Nat)
    (srv : Server) : Except Err Server :=
  if srv.queue.length < srv.queueCap then
    .ok { srv with queue := srv.queue ++ [⟨pid, tid, msg, clientAddr⟩] }
  else .error .ServerQueueFull

/-- Read the outstanding record for a sender index; index 0 and indices past
the table hold no record. -/
def slotGet (srv : Server) (idx : Nat) : Option WaitingMessage :=
  if idx = 0 then Option.none else srv.slots.getD (idx - 1) Option.none

/-- Clear the outstanding record for a sender index. -/
def slotClear (srv : Server) (idx : Nat) : Server :=
  { srv with slots := srv.slots.set (idx - 1) Option.none }

/-- Modelled from the spec: remove and return the outstanding sender record.
For a borrowed memory record a provided buffer must match the recorded server
side region, same base and length, otherwise InternalError; an absent record
is reported as the variant called None in the source. -/
def take_waiting_message (idx : Nat) (buf : Option MemRange) (srv : Server) :
    Except Err (WaitingMessage × Server) :=
  match slotGet srv idx with
  | Option.none => .ok (.nothing, srv)
  | some w =>
    match w, buf with
    | .borrowedMemory cp ct sa ca l, some b =>
      if sa = b.addr ∧ l = b.size then
        .ok (.borrowedMemory cp ct sa ca l, slotClear srv idx)
      else .error .InternalError
    | _, _ => .ok (w, slotClear srv idx)

/-- Dequeue the head of the server FIFO and wrap it as an envelope for the
given connection. Modelled from the spec: take_next_message dequeues the
FIFO head; the sender index attached to a queued message is assigned inside
the external server component and no claim inspects it, so index 0 stands
in. -/
def take_next_message (cid : Nat) (srv : Server) : Option (MessageEnvelope × Server) :=
  match srv.queue with
  | [] => Option.none
  | q :: rest => some (⟨⟨cid, 0⟩, q.msg⟩, { srv with queue := rest })

/-- Thread states, from the spec data model. -/
inductive TState
  | running
  | ready
  | blockedOnReceive
  | blockedOnReturn
  | parkedT
  | freeT
deriving DecidableEq, Repr

/-- The syscall result values of xous_kernel::Result used by syscall.rs. -/
inductive RVal
  | okR
  | message (env : MessageEnvelope)
  | blockedProcess
  | resumeProcess
  | memoryRange (r : MemRange)
  | scalar1 (a : Nat)
  | scalar2 (a : Nat) (b : Nat)
  | connectionID (cid : Nat)
deriving DecidableEq, Repr

/-- Association list lookup keyed by a pid and tid pair. -/
def alookup {α : Type} : List ((Nat × Nat) × α) → Nat × Nat → Option α
  | [], _ => Option.none
  | (k, v) :: rest, q => if k = q then some v else alookup rest q

/-- Association list in place update, leaving absent keys absent. -/
def aset {α : Type} : List ((Nat × Nat) × α) → Nat × Nat → α → List ((Nat × Nat) × α)
  | [], _, _ => []
  | (k, v) :: rest, q, w => if k = q then (k, w) :: rest else (k, v) :: aset rest q w

/-- The kernel state reached through the scoped accessors of syscall.rs: the
single server endpoint of the model with its public sid and the connection
id under which envelopes name it, the thread table, the saved syscall
results written by set_thread_result (newest first), the running thread, the
calling process connection table, the lent memory bookkeeping of the memory
manager facade, the parent pid of the calling process, and the switchto
caller slot. -/
structure KState where
  server : Server
  serverSid : Nat
  serverCid : Nat
  threads : List ((Nat × Nat) × TState)
  results : List ((Nat × Nat) × RVal)
  running : Option (Nat × Nat)
  connections : List Nat
  serverMapped : List MemRange
  clientMapped : List (Nat × MemRange)
  nextVirt : Nat
  memOk : Bool
  ppid : Nat
  switchtoCaller : Option (Nat × Nat)
deriving DecidableEq, Repr

/-- Resolve a connection id to the server, as sidx_from_cid followed by
server_from_sidx: defined for the model connection id only. -/
def server_from_cid (st : KState) (cid : Nat) : Option Server :=
  if cid = st.serverCid then some st.server else Option.none

/-- Resolve a sid to the server, as server_sidx followed by
server_from_sidx. -/
def server_from_sid (st : KState) (sid : Nat) : Option Server :=
  if sid = st.serverSid then some st.server else Option.none

/-- Modelled from the spec: mark a thread Ready; fails when the thread does
not exist. -/
def ready_thread (pid tid : Nat) (st : KState) : Except Err KState :=
  match alookup st.threads (pid, tid) with
  | Option.none => .error .ProcessNotFound
  | some _ => .ok { st with threads := aset st.threads (pid, tid) TState.ready }

/-- Modelled from the spec: make a thread the running one. -/
def switch_to_thread (pid tid : Nat) (st : KState) : Except Err KState :=
  match alookup st.threads (pid, tid) with
  | Option.none => .error .ProcessNotFound
  | some _ =>
    .ok { st with threads := aset st.threads (pid, tid) TState.running,
                  running := some (pid, tid) }

/-- Modelled from the spec: suspend a thread at a syscall boundary; fails when
the thread does not exist. -/
def switch_from_thread (pid tid : Nat) (st : KState) : Except Err KState :=
  match alookup st.threads (pid, tid) with
  | Option.none => .error .ProcessNotFound
  | some _ => .ok { st with running := Option.none }

/-- Modelled from the spec: write a result value into the saved register area
of a suspended thread, so the syscall appears to return it on resumption. -/
def set_thread_result (pid tid : Nat) (v : RVal) (st : KState) : Except Err KState :=
  match alookup st.threads (pid, tid) with
  | Option.none => .error .ProcessNotFound
  | some _ => .ok { st with results := ((pid, tid), v) :: st.results }

/-- Modelled from the spec: suspend the current thread and activate another
process and thread; fails ProcessNotFound when the target does not exist. -/
def activate_process_thread (newPid newTid : Nat) (st : KState) : Except Err KState :=
  match alookup st.threads (newPid, newTid) with
  | Option.none => .error .ProcessNotFound
  | some _ =>
    .ok { st with threads := aset st.threads (newPid, newTid) TState.running,
                  running := some (newPid, newTid) }

/-- Modelled from the spec: the memory manager reverse lend, restoring the
client mapping for pages currently mapped in the server space. -/
def mm_return_memory (serverAddr : Nat) (cpid _ctid : Nat) (clientAddr len : Nat)
    (st : KState) : Except Err KState :=
  if (⟨serverAddr, len⟩ : MemRange) ∈ st.serverMapped then
    .ok { st with serverMapped := st.serverMapped.erase ⟨serverAddr, len⟩,
                  clientMapped := (cpid, ⟨clientAddr, len⟩) :: st.clientMapped }
  else .error .BadAddress

/-- Modelled from the spec: page level move of a client region into the
server space; the source pages leave the client mapping and appear at a fresh
server side address; fails OutOfMemory when frames are exhausted. -/
def ss_send_memory (pid : Nat) (srcAddr len : Nat) (st : KState) :
    Except Err (Nat × KState) :=
  if st.memOk then
    .ok (st.nextVirt,
      { st with nextVirt := st.nextVirt + len,
                serverMapped := ⟨st.nextVirt, len⟩ :: st.serverMapped,
                clientMapped := st.clientMapped.erase (pid, ⟨srcAddr, len⟩) })
  else .error .OutOfMemory

/-- Modelled from the spec: remap a client region into the server space for a
loan, read only or writable; fails OutOfMemory when frames are exhausted. -/
def ss_lend_memory (pid : Nat) (srcAddr len : Nat) (_mutable : Bool) (st : KState) :
    Except Err (Nat × KState) :=
  if st.memOk then
    .ok (st.nextVirt,
      { st with nextVirt := st.nextVirt + len,
                serverMapped := ⟨st.nextVirt, len⟩ :: st.serverMapped,
                clientMapped := st.clientMapped.erase (pid, ⟨srcAddr, len⟩) })
  else .error .OutOfMemory

/-- Modelled from the spec: connection ids are allocated on first TryConnect
and lazily on ReceiveMessage; an existing entry is reused. The connection id
is the position in the connection table. -/
def connect_to_server (sid : Nat) (st : KState) : Except Err (Nat × KState) :=
  match st.connections.indexOf? sid with
  | some i => .ok (i, st)
  | Option.none =>
    .ok (st.connections.length, { st with connections := st.connections ++ [sid] })

/-- Embedding of return_scalar (syscall.rs lines 280 to 316): resolve the
sender connection to the server, require the caller to be the server host,
remove the outstanding record, and only for a ScalarMessage record ready the
client thread, switch to it, and set its result to Scalar1. Every other
record variant, including an absent one, is reported as ProcessNotFound
after the record has been removed. Errors pair with the state at the point
the question mark operator escaped. -/
def return_scalar (pid _tid : Nat) (sender : SenderID) (arg : Nat) (st : KState) :
    Except Err RVal × KState :=
  match server_from_cid st sender.cid with
  | Option.none => (.error .ServerNotFound, st)
  | some srv =>
    if srv.pid ≠ pid then (.error .ServerNotFound, st)
    else
      match take_waiting_message sender.idx Option.none srv with
      | .error e => (.error e, st)
      | .ok (w, srv2) =>
        let st2 := { st with server := srv2 }
        match w with
        | .scalarMessage cpid ctid =>
          match ready_thread cpid ctid st2 with
          | .error e => (.error e, st2)
          | .ok st3 =>
            match switch_to_thread cpid ctid st3 with
            | .error e => (.error e, st3)
            | .ok st4 =>
              match set_thread_result cpid ctid (.scalar1 arg) st4 with
              | .error e => (.error e, st4)
              | .ok st5 => (.ok .okR, st5)
        | _ => (.error .ProcessNotFound, st2)

/-- Embedding of return_scalar2 (syscall.rs lines 318 to 354): identical to
return_scalar except that the client result is Scalar2 of the two
arguments. -/
def return_scalar2 (pid _tid : Nat) (sender : SenderID) (arg1 arg2 : Nat) (st : KState) :
    Except Err RVal × KState :=
  match server_from_cid st sender.cid with
  | Option.none => (.error .ServerNotFound, st)
  | some srv =>
    if srv.pid ≠ pid then (.error .ServerNotFound, st)
    else
      match take_waiting_message sender.idx Option.none srv with
      | .error e => (.error e, st)
      | .ok (w, srv2) =>
        let st2 := { st with server := srv2 }
        match w with
        | .scalarMessage cpid ctid =>
          match ready_thread cpid ctid st2 with
          | .error e => (.error e, st2)
          | .ok st3 =>
            match switch_to_thread cpid ctid st3 with
            | .error e => (.error e, st3)
            | .ok st4 =>
              match set_thread_result cpid ctid (.scalar2 arg1 arg2) st4 with
              | .error e => (.error e, st4)
              | .ok st5 => (.ok .okR, st5)
        | _ => (.error .ProcessNotFound, st2)

/-- Embedding of return_memory (syscall.rs lines 198 to 277): resolve the
sender connection, require the caller to be the server host, remove the
outstanding record checking the returned buffer against it, then case on the
record: BorrowedMemory remaps the pages back to the client, readies the
client thread, switches to it, sets its result to Ok and returns Ok;
MovedMemory returns Ok with no memory action; ForgetMemory checks alignment
and unmaps the pages (the per page unmap calls live in the external memory
manager and are modelled as succeeding, since no claim inspects them);
ScalarMessage is InternalError; an absent record is ProcessNotFound. -/
def return_memory (pid _tid : Nat) (sender : SenderID) (buf : MemRange) (st : KState) :
    Except Err RVal × KState :=
  match server_from_cid st sender.cid with
  | Option.none => (.error .ServerNotFound, st)
  | some srv =>
    if srv.pid ≠ pid then (.error .ServerNotFound, st)
    else
      match take_waiting_message sender.idx (some buf) srv with
      | .error e => (.error e, st)
      | .ok (w, srv2) =>
        let st2 := { st with server := srv2 }
        match w with
        | .borrowedMemory cpid ctid serverAddr clientAddr len =>
          match mm_return_memory serverAddr cpid ctid clientAddr len st2 with
          | .error e => (.error e, st2)
          | .ok st3 =>
            match ready_thread cpid ctid st3 with
            | .error e => (.error e, st3)
            | .ok st4 =>
              match switch_to_thread cpid ctid st4 with
              | .error e => (.error e, st4)
              | .ok st5 =>
                match set_thread_result cpid ctid .okR st5 with
                | .error e => (.error e, st5)
                | .ok st6 => (.ok .okR, st6)
        | .movedMemory => (.ok .okR, st2)
        | .forgetMemory range =>
          if range.addr % 0x1000 ≠ 0 then (.error .BadAlignment, st2)
          else (.ok .okR, { st2 with serverMapped := st2.serverMapped.erase range })
        | .scalarMessage _ _ => (.error .InternalError, st2)
        | .nothing => (.error .ProcessNotFound, st2)

/-- Embedding of receive_message (syscall.rs lines 356 to 408): connect to
the server by sid first, then resolve the server and require the caller to
be its host, then either return a queued envelope or park the thread and
suspend. The source also asserts that the calling thread is the running one,
a dispatcher invariant outside this model. The bm flag selects the baremetal
or the hosted suspension path. -/
def receive_message (bm : Bool) (pid tid : Nat) (sid : Nat) (st : KState) :
    Except Err RVal × KState :=
  match connect_to_server sid st with
  | .error e => (.error e, st)
  | .ok (cid, st1) =>
    match server_from_sid st1 sid with
    | Option.none => (.error .ServerNotFound, st1)
    | some srv =>
      if srv.pid ≠ pid then (.error .ServerNotFound, st1)
      else
        match take_next_message cid srv with
        | some (env, srv2) => (.ok (.message env), { st1 with server := srv2 })
        | Option.none =>
          let st2 := { st1 with server := park_thread tid srv }
          if bm then
            let st3 := { st2 with switchtoCaller := Option.none }
            match activate_process_thread st3.ppid 0 st3 with
            | .error _ => (.error .ProcessNotFound, st3)
            | .ok st4 => (.ok .resumeProcess, st4)
          else
            match switch_from_thread pid tid st2 with
            | .error e => (.error e, st2)
            | .ok st3 => (.ok .blockedProcess, st3)

/-- The memory translation step of send_message (syscall.rs lines 38 to 92):
scalar messages pass through; a Move hands its pages to the server through
send_memory; a Borrow or MutableBorrow lends them through lend_memory; the
rebuilt message carries the server side buffer address. -/
def translate_message (pid : Nat) (message : Message) (st : KState) :
    Except Err (Message × KState) :=
  match message with
  | .scalar _ => .ok (message, st)
  | .blockingScalar _ => .ok (message, st)
  | .move m =>
    match ss_send_memory pid m.buf.addr m.buf.size st with
    | .error e => .error e
    | .ok (newVirt, st1) =>
      .ok (.move { m with buf := ⟨newVirt, m.buf.size⟩ }, st1)
  | .mutableBorrow m =>
    match ss_lend_memory pid m.buf.addr m.buf.size true st with
    | .error e => .error e
    | .ok (newVirt, st1) =>
      .ok (.mutableBorrow { m with buf := ⟨newVirt, m.buf.size⟩ }, st1)
  | .borrow m =>
    match ss_lend_memory pid m.buf.addr m.buf.size false st with
    | .error e => .error e
    | .ok (newVirt, st1) =>
      .ok (.borrow { m with buf := ⟨newVirt, m.buf.size⟩ }, st1)

/-- The context switch tail of the parked receiver delivery (syscall.rs lines
135 to 169), after the receiver thread was marked ready: baremetal blocking
activates the server thread and hands it the envelope as its syscall result;
hosted blocking suspends the client, switches to the server thread and
writes the envelope into its saved result, returning BlockedProcess;
baremetal non blocking just writes the envelope; hosted non blocking also
switches to the server thread so that it is running. -/
def deliver_to_thread (bm : Bool) (pid thread : Nat) (blocking : Bool)
    (envelope : MessageEnvelope) (server_pid server_tid : Nat) (st : KState) :
    Except Err RVal × KState :=
  if blocking && bm then
    match activate_process_thread server_pid server_tid st with
    | .error _ => (.error .ProcessNotFound, st)
    | .ok st2 => (.ok (.message envelope), st2)
  else if blocking && !bm then
    match switch_from_thread pid thread st with
    | .error e => (.error e, st)
    | .ok st2 =>
      match switch_to_thread server_pid server_tid st2 with
      | .error e => (.error e, st2)
      | .ok st3 =>
        match set_thread_result server_pid server_tid (.message envelope) st3 with
        | .error e => (.error e, st3)
        | .ok st4 => (.ok .blockedProcess, st4)
  else if bm then
    match set_thread_result server_pid server_tid (.message envelope) st with
    | .error e => (.error e, st)
    | .ok st2 => (.ok .okR, st2)
  else
    match switch_to_thread server_pid server_tid st with
    | .error e => (.error e, st)
    | .ok st2 =>
      match set_thread_result server_pid server_tid (.message envelope) st2 with
      | .error e => (.error e, st2)
      | .ok st3 => (.ok .okR, st3)

/-- Embedding of send_message (syscall.rs lines 13 to 196). The structure
follows the source line by line: resolve the connection, remember the client
side buffer address, translate any memory portion, then either deliver to a
popped parked receiver or enqueue. In the delivery branch the sender index is
allocated through remember_server_message only when the translated message
is blocking, with index 0 otherwise; on a remember failure, and again on a
ready_thread failure, the source passes the CLIENT tid, the parameter named
thread, to return_available_thread, and a ready_thread failure leaves the
just allocated sender slot in place; the embedding reproduces both
behaviours exactly as written. -/
def send_message (bm : Bool) (pid thread : Nat) (cid : Nat) (message : Message)
    (st : KState) : Except Err RVal × KState :=
  match server_from_cid st cid with
  | Option.none => (.error .ServerNotFound, st)
  | some srv0 =>
    let server_pid := srv0.pid
    let client_address : Option Nat :=
      match message with
      | .scalar _ => Option.none
      | .blockingScalar _ => Option.none
      | .move m => some m.buf.addr
      | .mutableBorrow m => some m.buf.addr
      | .borrow m => some m.buf.addr
    let blocking := message.is_blocking
    match translate_message pid message st with
    | .error e => (.error e, st)
    | .ok (message2, st1) =>
      match take_available_thread st1.server with
      | some (server_tid, srv2) =>
        let st2 := { st1 with server := srv2 }
        let server_cid := st2.serverCid
        let rest : Nat → KState → Except Err RVal × KState := fun sender_idx st3 =>
          let envelope : MessageEnvelope := ⟨⟨server_cid, sender_idx⟩, message2⟩
          match ready_thread server_pid server_tid st3 with
          | .error e =>
            (.error e, { st3 with server := return_available_thread thread st3.server })
          | .ok st4 => deliver_to_thread bm pid thread blocking envelope server_pid server_tid st4
        if message2.is_blocking then
          match remember_server_message pid thread message2 client_address st2.server with
          | .error e =>
            (.error e, { st2 with server := return_available_thread thread st2.server })
          | .ok (sender_idx, srv3) => rest sender_idx { st2 with server := srv3 }
        else rest 0 st2
      | Option.none =>
        match queue_server_message pid thread message2 client_address st1.server with
        | .error e => (.error e, st1)
        | .ok srvq =>
          let st2 := { st1 with server := srvq }
          if blocking then
            if bm then
              let st3 := { st2 with switchtoCaller := Option.none }
              match activate_process_thread st3.ppid 0 st3 with
              | .error _ => (.error .ProcessNotFound, st3)
              | .ok st4 => (.ok .resumeProcess, st4)
            else
              match switch_from_thread pid thread st2 with
              | .error e => (.error e, st2)
              | .ok st3 => (.ok .blockedProcess, st3)
          else (.ok .okR, st2)

/-- The envelope a receiver observes after a send: the freshest saved result
of the receiver thread when it is a message, or the direct syscall return
value when the send context switched into the receiver on baremetal. -/
def envelopeDelivered (res : Except Err RVal) (st : KState) (pid tid : Nat) :
    Option MessageEnvelope :=
  match alookup st.results (pid, tid) with
  | some (RVal.message e) => some e
  | some _ => Option.none
  | Option.none =>
    match res with
    | .ok (RVal.message e) => some e
    | _ => Option.none

theorem take_waiting_message_none_ok (idx : Nat) (srv : Server) :
    ∃ w srv2, take_waiting_message idx Option.none srv = .ok (w, srv2) := by
  unfold take_waiting_message
  cases h : slotGet srv idx with
  | none => exact ⟨.nothing, srv, rfl⟩
  | some w => cases w <;> exact ⟨_, _, rfl⟩

theorem ready_thread_error_eq {p t : Nat} {st : KState} {e : Err} :
    ready_thread p t st = .error e → e = .ProcessNotFound := by
  unfold ready_thread
  cases alookup st.threads (p, t) with
  | none => intro h; exact (Except.error.inj h).symm
  | some v => intro h; exact absurd h (by simp)

theorem switch_to_thread_error_eq {p t : Nat} {st : KState} {e : Err} :
    switch_to_thread p t st = .error e → e = .ProcessNotFound := by
  unfold switch_to_thread
  cases alookup st.threads (p, t) with
  | none => intro h; exact (Except.error.inj h).symm
  | some v => intro h; exact absurd h (by simp)

theorem set_thread_result_error_eq {p t : Nat} {st : KState} {v : RVal} {e : Err} :
    set_thread_result p t v st = .error e → e = .ProcessNotFound := by
  unfold set_thread_result
  cases alookup st.threads (p, t) with
  | none => intro h; exact (Except.error.inj h).symm
  | some v => intro h; exact absurd h (by simp)

theorem alookup_aset_self {α : Type} (l : List ((Nat × Nat) × α)) (k : Nat × Nat) (v : α) :
    (alookup l k).isSome = true → alookup (aset l k v) k = some v := by
  induction l with
  | nil => simp [alookup]
  | cons hd t ih =>
    obtain ⟨k2, v2⟩ := hd
    by_cases hk : k2 = k
    · subst hk
      simp [alookup, aset]
    · simp only [alookup, aset, if_neg hk]
      exact ih

/-- C4 counterexample: with an outstanding MovedMemory record, ReturnScalar1
and ReturnScalar2 from the server host return ProcessNotFound, not the
InternalError the claim names. -/
theorem c4_nonscalar_record_gives_processnotfound :
    (return_scalar 1 0 ⟨4, 1⟩ 99
      ⟨⟨1, [], [], 8, [some .movedMemory]⟩, 99, 4, [((2, 7), .blockedOnReturn)], [],
        some (1, 0), [], [], [], 0x80000000, true, 1, Option.none⟩).1 =
        .error .ProcessNotFound ∧
    (return_scalar2 1 0 ⟨4, 1⟩ 10 20
      ⟨⟨1, [], [], 8, [some .movedMemory]⟩, 99, 4, [((2, 7), .blockedOnReturn)], [],
        some (1, 0), [], [], [], 0x80000000, true, 1, Option.none⟩).1 =
        .error .ProcessNotFound ∧
    Err.ProcessNotFound ≠ Err.InternalError := by
  refine ⟨rfl, rfl, by decide⟩

/-- C4 amended: every ReturnScalar1 or ReturnScalar2 call produces Ok,
ServerNotFound, or ProcessNotFound, and each row of the outcome table is
characterised: ProcessNotFound, a diagnostic error rather than
InternalError, when the outstanding record is present but is any variant
other than ScalarMessage; ServerNotFound when the sender connection does not
resolve to the server, and again when it does but the caller is not the
server host, in both cases with the state untouched; and Ok when the record
is ScalarMessage and the client thread exists, in which case the client
thread is readied and switched to and its saved result is Scalar1 of the
argument, or Scalar2 of the two arguments. -/
theorem c4_return_scalar_outcomes (pid tid : Nat) (sender : SenderID)
    (arg arg1 arg2 : Nat) (st : KState) :
    ((return_scalar pid tid sender arg st).1 = .ok .okR ∨
     (return_scalar pid tid sender arg st).1 = .error .ServerNotFound ∨
     (return_scalar pid tid sender arg st).1 = .error .ProcessNotFound) ∧
    ((return_scalar2 pid tid sender arg1 arg2 st).1 = .ok .okR ∨
     (return_scalar2 pid tid sender arg1 arg2 st).1 = .error .ServerNotFound ∨
     (return_scalar2 pid tid sender arg1 arg2 st).1 = .error .ProcessNotFound) ∧
    (∀ srv, server_from_cid st sender.cid = some srv → srv.pid = pid →
      ∀ w, slotGet srv sender.idx = some w →
        (∀ cp ct, w ≠ .scalarMessage cp ct) →
        (return_scalar pid tid sender arg st).1 = .error .ProcessNotFound ∧
        (return_scalar2 pid tid sender arg1 arg2 st).1 = .error .ProcessNotFound) ∧
    (server_from_cid st sender.cid = Option.none →
      return_scalar pid tid sender arg st = (.error .ServerNotFound, st) ∧
      return_scalar2 pid tid sender arg1 arg2 st = (.error .ServerNotFound, st)) ∧
    (∀ srv, server_from_cid st sender.cid = some srv → srv.pid ≠ pid →
      return_scalar pid tid sender arg st = (.error .ServerNotFound, st) ∧
      return_scalar2 pid tid sender arg1 arg2 st = (.error .ServerNotFound, st)) ∧
    (∀ srv cp ct, server_from_cid st sender.cid = some srv → srv.pid = pid →
      slotGet srv sender.idx = some (.scalarMessage cp ct) →
      (alookup st.threads (cp, ct)).isSome = true →
      (return_scalar pid tid sender arg st).1 = .ok .okR ∧
      alookup (return_scalar pid tid sender arg st).2.results (cp, ct) =
        some (RVal.scalar1 arg) ∧
      (return_scalar pid tid sender arg st).2.running = some (cp, ct) ∧
      (return_scalar2 pid tid sender arg1 arg2 st).1 = .ok .okR ∧
      alookup (return_scalar2 pid tid sender arg1 arg2 st).2.results (cp, ct) =
        some (RVal.scalar2 arg1 arg2) ∧
      (return_scalar2 pid tid sender arg1 arg2 st).2.running = some (cp, ct)) := by
  refine ⟨?_, ?_, ?_, ?_, ?_, ?_⟩
  · unfold return_scalar
    cases hs : server_from_cid st sender.cid with
    | none => simp
    | some srv =>
      by_cases hp : srv.pid ≠ pid
      · simp [hp]
      · dsimp only
        rw [if_neg hp]
        obtain ⟨w, srv2, htake⟩ := take_waiting_message_none_ok sender.idx srv
        rw [htake]
        cases w with
        | scalarMessage cp ct =>
          simp only []
          cases hr : ready_thread cp ct { st with server := srv2 } with
          | error e => simp [hr, ready_thread_error_eq hr]
          | ok st3 =>
            cases hw : switch_to_thread cp ct st3 with
            | error e => simp [hw, switch_to_thread_error_eq hw]
            | ok st4 =>
              cases hv : set_thread_result cp ct (.scalar1 arg) st4 with
              | error e => simp [hw, hv, set_thread_result_error_eq hv]
              | ok st5 => simp [hw, hv]
        | borrowedMemory cp ct sa ca l => simp
        | movedMemory => simp
        | forgetMemory r => simp
        | nothing => simp
  · unfold return_scalar2
    cases hs : server_from_cid st sender.cid with
    | none => simp
    | some srv =>
      by_cases hp : srv.pid ≠ pid
      · simp [hp]
      · dsimp only
        rw [if_neg hp]
        obtain ⟨w, srv2, htake⟩ := take_waiting_message_none_ok sender.idx srv
        rw [htake]
        cases w with
        | scalarMessage cp ct =>
          simp only []
          cases hr : ready_thread cp ct { st with server := srv2 } with
          | error e => simp [hr, ready_thread_error_eq hr]
          | ok st3 =>
            cases hw : switch_to_thread cp ct st3 with
            | error e => simp [hw, switch_to_thread_error_eq hw]
            | ok st4 =>
              cases hv : set_thread_result cp ct (.scalar2 arg1 arg2) st4 with
              | error e => simp [hw, hv, set_thread_result_error_eq hv]
              | ok st5 => simp [hw, hv]
        | borrowedMemory cp ct sa ca l => simp
        | movedMemory => simp
        | forgetMemory r => simp
        | nothing => simp
  · intro srv hs hp w hw hne
    have htake : take_waiting_message sender.idx Option.none srv = .ok (w, slotClear srv sender.idx) := by
      unfold take_waiting_message
      rw [hw]
      cases w with
      | scalarMessage cp ct => exact absurd rfl (hne cp ct)
      | borrowedMemory cp ct sa ca l => rfl
      | movedMemory => rfl
      | forgetMemory r => rfl
      | nothing => rfl
    constructor
    · unfold return_scalar
      rw [hs]
      dsimp only
      rw [if_neg (by simp [hp]), htake]
      cases w with
      | scalarMessage cp ct => exact absurd rfl (hne cp ct)
      | borrowedMemory cp ct sa ca l => rfl
      | movedMemory => rfl
      | forgetMemory r => rfl
      | nothing => rfl
    · unfold return_scalar2
      rw [hs]
      dsimp only
      rw [if_neg (by simp [hp]), htake]
      cases w with
      | scalarMessage cp ct => exact absurd rfl (hne cp ct)
      | borrowedMemory cp ct sa ca l => rfl
      | movedMemory => rfl
      | forgetMemory r => rfl
      | nothing => rfl
  · intro hs
    constructor
    · unfold return_scalar
      rw [hs]
    · unfold return_scalar2
      rw [hs]
  · intro srv hs hp
    constructor
    · unfold return_scalar
      rw [hs]
      dsimp only
      rw [if_pos hp]
    · unfold return_scalar2
      rw [hs]
      dsimp only
      rw [if_pos hp]
  · intro srv cp ct hs hp hw hth
    have htake : take_waiting_message sender.idx Option.none srv =
        .ok (.scalarMessage cp ct, slotClear srv sender.idx) := by
      unfold take_waiting_message
      rw [hw]
    have hth2 : alookup (aset st.threads (cp, ct) TState.ready) (cp, ct) =
        some TState.ready := alookup_aset_self st.threads (cp, ct) TState.ready hth
    have hth3 : alookup (aset (aset st.threads (cp, ct) TState.ready) (cp, ct)
          TState.running) (cp, ct) = some TState.running :=
      alookup_aset_self _ (cp, ct) TState.running (by rw [hth2]; rfl)
    have hry : ready_thread cp ct { st with server := slotClear srv sender.idx } =
        .ok { st with server := slotClear srv sender.idx,
                      threads := aset st.threads (cp, ct) TState.ready } := by
      unfold ready_thread
      dsimp only
      cases hv : alookup st.threads (cp, ct) with
      | none =>
        rw [hv] at hth
        exact absurd hth (by simp)
      | some v => rfl
    have hsw : switch_to_thread cp ct
        { st with server := slotClear srv sender.idx,
                  threads := aset st.threads (cp, ct) TState.ready } =
        .ok { st with server := slotClear srv sender.idx,
                      threads := aset (aset st.threads (cp, ct) TState.ready) (cp, ct)
                        TState.running,
                      running := some (cp, ct) } := by
      unfold switch_to_thread
      dsimp only
      rw [hth2]
    have hsr1 : set_thread_result cp ct (RVal.scalar1 arg)
        { st with server := slotClear srv sender.idx,
                  threads := aset (aset st.threads (cp, ct) TState.ready) (cp, ct)
                    TState.running,
                  running := some (cp, ct) } =
        .ok { st with server := slotClear srv sender.idx,
                      threads := aset (aset st.threads (cp, ct) TState.ready) (cp, ct)
                        TState.running,
                      running := some (cp, ct),
                      results := ((cp, ct), RVal.scalar1 arg) :: st.results } := by
      unfold set_thread_result
      dsimp only
      rw [hth3]
    have hsr2 : set_thread_result cp ct (RVal.scalar2 arg1 arg2)
        { st with server := slotClear srv sender.idx,
                  threads := aset (aset st.threads (cp, ct) TState.ready) (cp, ct)
                    TState.running,
                  running := some (cp, ct) } =
        .ok { st with server := slotClear srv sender.idx,
                      threads := aset (aset st.threads (cp, ct) TState.ready) (cp, ct)
                        TState.running,
                      running := some (cp, ct),
                      results := ((cp, ct), RVal.scalar2 arg1 arg2) :: st.results } := by
      unfold set_thread_result
      dsimp only
      rw [hth3]
    have heq1 : return_scalar pid tid sender arg st =
        (.ok .okR,
          { st with server := slotClear srv sender.idx,
                    threads := aset (aset st.threads (cp, ct) TState.ready) (cp, ct)
                      TState.running,
                    running := some (cp, ct),
                    results := ((cp, ct), RVal.scalar1 arg) :: st.results }) := by
      unfold return_scalar
      rw [hs]
      dsimp only
      rw [if_neg (by simp [hp]), htake]
      dsimp only
      rw [hry]
      dsimp only
      rw [hsw]
      dsimp only
      rw [hsr1]
    have heq2 : return_scalar2 pid tid sender arg1 arg2 st =
        (.ok .okR,
          { st with server := slotClear srv sender.idx,
                    threads := aset (aset st.threads (cp, ct) TState.ready) (cp, ct)
                      TState.running,
                    running := some (cp, ct),
                    results := ((cp, ct), RVal.scalar2 arg1 arg2) :: st.results }) := by
      unfold return_scalar2
      rw [hs]
      dsimp only
      rw [if_neg (by simp [hp]), htake]
      dsimp only
      rw [hry]
      dsimp only
      rw [hsw]
      dsimp only
      rw [hsr2]
    rw [heq1, heq2]
    exact ⟨rfl, by simp [alookup], rfl, rfl, by simp [alookup], rfl⟩

/-- C4 witness: the amended theorem applied at concrete states, one for each
row of the outcome table: an outstanding ForgetMemory record gives
ProcessNotFound, an unknown sender connection gives ServerNotFound, a caller
that is not the server host gives ServerNotFound, and a ScalarMessage record
gives Ok with the client thread switched to and its result set. -/
theorem c4_return_scalar_outcomes_witness :
    (return_scalar 1 0 ⟨4, 1⟩ 5
      ⟨⟨1, [], [], 8, [some (.forgetMemory ⟨0x30000000, 0x1000⟩)]⟩, 99, 4,
        [((2, 7), .blockedOnReturn)], [], some (1, 0), [], [], [],
        0x80000000, true, 1, Option.none⟩).1 = .error .ProcessNotFound ∧
    (return_scalar2 1 0 ⟨4, 1⟩ 5 6
      ⟨⟨1, [], [], 8, [some (.forgetMemory ⟨0x30000000, 0x1000⟩)]⟩, 99, 4,
        [((2, 7), .blockedOnReturn)], [], some (1, 0), [], [], [],
        0x80000000, true, 1, Option.none⟩).1 = .error .ProcessNotFound ∧
    (return_scalar 1 0 ⟨5, 1⟩ 5
      ⟨⟨1, [], [], 8, [some (.scalarMessage 2 7)]⟩, 99, 4,
        [((2, 7), .blockedOnReturn)], [], some (1, 0), [], [], [],
        0x80000000, true, 1, Option.none⟩).1 = .error .ServerNotFound ∧
    (return_scalar2 2 0 ⟨4, 1⟩ 5 6
      ⟨⟨1, [], [], 8, [some (.scalarMessage 2 7)]⟩, 99, 4,
        [((2, 7), .blockedOnReturn)], [], some (1, 0), [], [], [],
        0x80000000, true, 1, Option.none⟩).1 = .error .ServerNotFound ∧
    (return_scalar 1 0 ⟨4, 1⟩ 5
      ⟨⟨1, [], [], 8, [some (.scalarMessage 2 7)]⟩, 99, 4,
        [((2, 7), .blockedOnReturn)], [], some (1, 0), [], [], [],
        0x80000000, true, 1, Option.none⟩).1 = .ok .okR ∧
    alookup (return_scalar 1 0 ⟨4, 1⟩ 5
      ⟨⟨1, [], [], 8, [some (.scalarMessage 2 7)]⟩, 99, 4,
        [((2, 7), .blockedOnReturn)], [], some (1, 0), [], [], [],
        0x80000000, true, 1, Option.none⟩).2.results (2, 7) = some (RVal.scalar1 5) ∧
    (return_scalar2 1 0 ⟨4, 1⟩ 5 6
      ⟨⟨1, [], [], 8, [some (.scalarMessage 2 7)]⟩, 99, 4,
        [((2, 7), .blockedOnReturn)], [], some (1, 0), [], [], [],
        0x80000000, true, 1, Option.none⟩).1 = .ok .okR ∧
    alookup (return_scalar2 1 0 ⟨4, 1⟩ 5 6
      ⟨⟨1, [], [], 8, [some (.scalarMessage 2 7)]⟩, 99, 4,
        [((2, 7), .blockedOnReturn)], [], some (1, 0), [], [], [],
        0x80000000, true, 1, Option.none⟩).2.results (2, 7) = some (RVal.scalar2 5 6) := by
  have hpnf := (c4_return_scalar_outcomes 1 0 ⟨4, 1⟩ 5 5 6
      ⟨⟨1, [], [], 8, [some (.forgetMemory ⟨0x30000000, 0x1000⟩)]⟩, 99, 4,
        [((2, 7), .blockedOnReturn)], [], some (1, 0), [], [], [],
        0x80000000, true, 1, Option.none⟩).2.2.1
    ⟨1, [], [], 8, [some (.forgetMemory ⟨0x30000000, 0x1000⟩)]⟩ rfl rfl
    (.forgetMemory ⟨0x30000000, 0x1000⟩) rfl
    (fun _cp _ct h => WaitingMessage.noConfusion h)
  have hnores := (c4_return_scalar_outcomes 1 0 ⟨5, 1⟩ 5 5 6
      ⟨⟨1, [], [], 8, [some (.scalarMessage 2 7)]⟩, 99, 4,
        [((2, 7), .blockedOnReturn)], [], some (1, 0), [], [], [],
        0x80000000, true, 1, Option.none⟩).2.2.2.1 rfl
  have hhost := (c4_return_scalar_outcomes 2 0 ⟨4, 1⟩ 5 5 6
      ⟨⟨1, [], [], 8, [some (.scalarMessage 2 7)]⟩, 99, 4,
        [((2, 7), .blockedOnReturn)], [], some (1, 0), [], [], [],
        0x80000000, true, 1, Option.none⟩).2.2.2.2.1
    ⟨1, [], [], 8, [some (.scalarMessage 2 7)]⟩ rfl (by decide)
  have hok := (c4_return_scalar_outcomes 1 0 ⟨4, 1⟩ 5 5 6
      ⟨⟨1, [], [], 8, [some (.scalarMessage 2 7)]⟩, 99, 4,
        [((2, 7), .blockedOnReturn)], [], some (1, 0), [], [], [],
        0x80000000, true, 1, Option.none⟩).2.2.2.2.2
    ⟨1, [], [], 8, [some (.scalarMessage 2 7)]⟩ 2 7 rfl rfl rfl rfl
  exact ⟨hpnf.1, hpnf.2, by rw [hnores.1], by rw [hhost.2],
    hok.1, hok.2.1, hok.2.2.2.1, hok.2.2.2.2.1⟩

/-- C6: for a ReturnMemory call whose outstanding record is BorrowedMemory,
a caller that is not the server host gets ServerNotFound; a buffer that does
not match the recorded server side region gets InternalError; and when the
caller is the host, the buffer matches, the region is mapped in the server
space and the client thread exists, the call succeeds: the pages leave the
server mapping and reappear at the recorded client address, the client
thread is readied and switched to, its saved result is Ok, and the server
caller also receives Ok. -/
theorem c6_return_memory_borrowed (pid tid : Nat) (sender : SenderID) (buf : MemRange)
    (st : KState) (srv : Server) (cpid ctid sa ca len : Nat)
    (hs : server_from_cid st sender.cid = some srv) :
    (srv.pid ≠ pid → return_memory pid tid sender buf st = (.error .ServerNotFound, st)) ∧
    (srv.pid = pid → slotGet srv sender.idx = some (.borrowedMemory cpid ctid sa ca len) →
      ¬(sa = buf.addr ∧ len = buf.size) →
      return_memory pid tid sender buf st = (.error .InternalError, st)) ∧
    (srv.pid = pid → slotGet srv sender.idx = some (.borrowedMemory cpid ctid sa ca len) →
      sa = buf.addr → len = buf.size →
      (⟨sa, len⟩ : MemRange) ∈ st.serverMapped →
      (alookup st.threads (cpid, ctid)).isSome = true →
      (return_memory pid tid sender buf st).1 = .ok .okR ∧
      alookup (return_memory pid tid sender buf st).2.results (cpid, ctid) = some RVal.okR ∧
      (return_memory pid tid sender buf st).2.running = some (cpid, ctid) ∧
      (return_memory pid tid sender buf st).2.serverMapped = st.serverMapped.erase ⟨sa, len⟩ ∧
      (cpid, (⟨ca, len⟩ : MemRange)) ∈ (return_memory pid tid sender buf st).2.clientMapped) := by
  refine ⟨?_, ?_, ?_⟩
  · intro hp
    unfold return_memory
    rw [hs]
    dsimp only
    rw [if_pos hp]
  · intro hp hw hmis
    unfold return_memory
    rw [hs]
    dsimp only
    rw [if_neg (by simp [hp])]
    have htake : take_waiting_message sender.idx (some buf) srv = .error .InternalError := by
      unfold take_waiting_message
      rw [hw]
      dsimp only
      rw [if_neg hmis]
    rw [htake]
  · intro hp hw hsa hsz hmem hth
    have htake : take_waiting_message sender.idx (some buf) srv =
        .ok (.borrowedMemory cpid ctid sa ca len, slotClear srv sender.idx) := by
      unfold take_waiting_message
      rw [hw]
      dsimp only
      rw [if_pos ⟨hsa, hsz⟩]
    have hmm : mm_return_memory sa cpid ctid ca len
        { st with server := slotClear srv sender.idx } =
        .ok { st with server := slotClear srv sender.idx,
                      serverMapped := st.serverMapped.erase ⟨sa, len⟩,
                      clientMapped := (cpid, ⟨ca, len⟩) :: st.clientMapped } := by
      unfold mm_return_memory
      rw [if_pos hmem]
    have hry : ready_thread cpid ctid
        { st with server := slotClear srv sender.idx,
                  serverMapped := st.serverMapped.erase ⟨sa, len⟩,
                  clientMapped := (cpid, ⟨ca, len⟩) :: st.clientMapped } =
        .ok { st with server := slotClear srv sender.idx,
                      serverMapped := st.serverMapped.erase ⟨sa, len⟩,
                      clientMapped := (cpid, ⟨ca, len⟩) :: st.clientMapped,
                      threads := aset st.threads (cpid, ctid) TState.ready } := by
      unfold ready_thread
      dsimp only
      cases hv : alookup st.threads (cpid, ctid) with
      | none =>
        rw [hv] at hth
        exact absurd hth (by simp)
      | some v => rfl
    have hth2 : alookup (aset st.threads (cpid, ctid) TState.ready) (cpid, ctid) =
        some TState.ready := alookup_aset_self st.threads (cpid, ctid) TState.ready hth
    unfold return_memory
    rw [hs]
    dsimp only
    rw [if_neg (by simp [hp]), htake]
    dsimp only
    rw [hmm]
    dsimp only
    rw [hry]
    dsimp only
    unfold switch_to_thread
    rw [show alookup (aset st.threads (cpid, ctid) TState.ready) (cpid, ctid) =
        some TState.ready from hth2]
    dsimp only
    unfold set_thread_result
    rw [show alookup (aset (aset st.threads (cpid, ctid) TState.ready) (cpid, ctid)
          TState.running) (cpid, ctid) = some TState.running from
        alookup_aset_self _ (cpid, ctid) TState.running (by rw [hth2]; rfl)]
    dsimp only
    refine ⟨rfl, ?_, rfl, rfl, ?_⟩
    · simp [alookup]
    · simp

/-- C6 witness: the theorem applied at a concrete borrowed region being
returned by the host server. -/
theorem c6_return_memory_borrowed_witness :
    (return_memory 1 0 ⟨4, 1⟩ ⟨0x90000000, 0x2000⟩
      ⟨⟨1, [], [], 8, [some (.borrowedMemory 2 7 0x90000000 0x20000000 0x2000)]⟩, 99, 4,
        [((2, 7), .blockedOnReturn)], [], some (1, 0), [], [⟨0x90000000, 0x2000⟩], [],
        0xA0000000, true, 1, Option.none⟩).1 = .ok .okR ∧
    alookup (return_memory 1 0 ⟨4, 1⟩ ⟨0x90000000, 0x2000⟩
      ⟨⟨1, [], [], 8, [some (.borrowedMemory 2 7 0x90000000 0x20000000 0x2000)]⟩, 99, 4,
        [((2, 7), .blockedOnReturn)], [], some (1, 0), [], [⟨0x90000000, 0x2000⟩], [],
        0xA0000000, true, 1, Option.none⟩).2.results (2, 7) = some RVal.okR :=
  by
  have h := (c6_return_memory_borrowed 1 0 ⟨4, 1⟩ ⟨0x90000000, 0x2000⟩
      ⟨⟨1, [], [], 8, [some (.borrowedMemory 2 7 0x90000000 0x20000000 0x2000)]⟩, 99, 4,
        [((2, 7), .blockedOnReturn)], [], some (1, 0), [], [⟨0x90000000, 0x2000⟩], [],
        0xA0000000, true, 1, Option.none⟩
      ⟨1, [], [], 8, [some (.borrowedMemory 2 7 0x90000000 0x20000000 0x2000)]⟩
      2 7 0x90000000 0x20000000 0x2000 rfl).2.2
      rfl rfl rfl rfl (by decide) rfl
  exact ⟨h.1, h.2.1⟩

/-- C10: receive_message calls connect_to_server before the host check, so a
ReceiveMessage issued by a process that is not the server host returns
ServerNotFound while the caller connection table has already been extended
with a connection to that server, whenever no connection existed before. -/
theorem c10_receive_connects_before_host_check (bm : Bool) (pid tid sid : Nat)
    (st : KState) (hsid : st.serverSid = sid) (hnp : st.server.pid ≠ pid)
    (hnc : st.connections.indexOf? sid = Option.none) :
    receive_message bm pid tid sid st =
      (.error .ServerNotFound, { st with connections := st.connections ++ [sid] }) ∧
    ({ st with connections := st.connections ++ [sid] } : KState).connections ≠
      st.connections := by
  constructor
  · unfold receive_message connect_to_server
    rw [hnc]
    dsimp only
    unfold server_from_sid
    rw [if_pos (by simp [hsid])]
    dsimp only
    rw [if_pos (by simpa using hnp)]
  · simp

/-- C10 witness: the theorem applied to a concrete non host caller with an
empty connection table. -/
theorem c10_receive_connects_before_host_check_witness :
    receive_message false 2 0 99
      ⟨⟨3, [], [], 8, [Option.none]⟩, 99, 4, [((2, 0), .running)], [], some (2, 0),
        [], [], [], 0x80000000, true, 1, Option.none⟩ =
      (.error .ServerNotFound,
        ⟨⟨3, [], [], 8, [Option.none]⟩, 99, 4, [((2, 0), .running)], [], some (2, 0),
          [99], [], [], 0x80000000, true, 1, Option.none⟩) :=
  (c10_receive_connects_before_host_check false 2 0 99
      ⟨⟨3, [], [], 8, [Option.none]⟩, 99, 4, [((2, 0), .running)], [], some (2, 0),
        [], [], [], 0x80000000, true, 1, Option.none⟩
      rfl (by decide) rfl).1

/-- C1: the claim states that a failure while delivering to a parked
receiver rolls back fully: the popped receiver thread returns to the parked
list and any allocated sender slot is freed. In the source both rollback
closures call return_available_thread with the variable named thread, which
is the CLIENT tid parameter of send_message, not the popped server_tid, and
the ready_thread failure path never frees the slot just allocated by
remember_server_message. This theorem evaluates the embedded code at a
failing input: server pid 3 with parked receiver tid 5 whose thread record
does not exist (so ready_thread fails), client (2, 7) sending a blocking
scalar. The call fails with ProcessNotFound, the parked list now holds the
client tid 7 instead of the receiver tid 5, and the sender slot remains
allocated. -/
theorem c1_rollback_parks_client_tid_and_leaks_slot :
    (send_message false 2 7 1 (.blockingScalar ⟨9, 1, 2, 3, 4⟩)
      ⟨⟨3, [5], [], 8, [Option.none]⟩, 99, 1, [((2, 7), .running)], [], some (2, 7),
        [], [], [], 0x80000000, true, 1, Option.none⟩).1 = .error .ProcessNotFound ∧
    (send_message false 2 7 1 (.blockingScalar ⟨9, 1, 2, 3, 4⟩)
      ⟨⟨3, [5], [], 8, [Option.none]⟩, 99, 1, [((2, 7), .running)], [], some (2, 7),
        [], [], [], 0x80000000, true, 1, Option.none⟩).2.server.parked = [7] ∧
    (send_message false 2 7 1 (.blockingScalar ⟨9, 1, 2, 3, 4⟩)
      ⟨⟨3, [5], [], 8, [Option.none]⟩, 99, 1, [((2, 7), .running)], [], some (2, 7),
        [], [], [], 0x80000000, true, 1, Option.none⟩).2.server.slots =
      [some (.scalarMessage 2 7)] ∧
    (⟨3, [5], [], 8, [Option.none]⟩ : Server).parked = [5] ∧ (7 : Nat) ≠ 5 :=
  ⟨rfl, rfl, rfl, rfl, by decide⟩

/-- C2 counterexample: a non blocking Move message carries memory, yet when
it is delivered to a parked receiver the source allocates a sender index
only for blocking messages, so the delivered envelope carries sender index
0: the claimed equivalence, non zero index exactly for blocking OR memory
carrying messages, fails at this input. -/
theorem c2_move_delivered_with_idx_zero :
    (send_message false 2 7 1 (.move ⟨7, ⟨0x20000000, 0x2000⟩, Option.none, some 0x100⟩)
      ⟨⟨3, [4], [], 8, [Option.none]⟩, 99, 1,
        [((3, 4), .parkedT), ((2, 7), .running)], [], some (2, 7),
        [], [], [(2, ⟨0x20000000, 0x2000⟩)], 0x80000000, true, 1, Option.none⟩).1 =
      .ok .okR ∧
    envelopeDelivered
      (send_message false 2 7 1 (.move ⟨7, ⟨0x20000000, 0x2000⟩, Option.none, some 0x100⟩)
        ⟨⟨3, [4], [], 8, [Option.none]⟩, 99, 1,
          [((3, 4), .parkedT), ((2, 7), .running)], [], some (2, 7),
          [], [], [(2, ⟨0x20000000, 0x2000⟩)], 0x80000000, true, 1, Option.none⟩).1
      (send_message false 2 7 1 (.move ⟨7, ⟨0x20000000, 0x2000⟩, Option.none, some 0x100⟩)
        ⟨⟨3, [4], [], 8, [Option.none]⟩, 99, 1,
          [((3, 4), .parkedT), ((2, 7), .running)], [], some (2, 7),
          [], [], [(2, ⟨0x20000000, 0x2000⟩)], 0x80000000, true, 1, Option.none⟩).2
      3 4 =
      some ⟨⟨1, 0⟩, .move ⟨7, ⟨0x80000000, 0x2000⟩, Option.none, some 0x100⟩⟩ ∧
    Message.carries_memory (.move ⟨7, ⟨0x20000000, 0x2000⟩, Option.none, some 0x100⟩) = true ∧
    (⟨⟨1, 0⟩, .move ⟨7, ⟨0x80000000, 0x2000⟩, Option.none,
      some 0x100⟩⟩ : MessageEnvelope).sender.idx = 0 :=
  ⟨rfl, rfl, rfl, rfl⟩

/-- A family of kernel states with one parked receiver thread stid of the
server process spid, a running client thread (cpid, ctid), a free first
sender slot, and a well provisioned memory manager, used to state the C2
delivery property for every message and both build flavours. -/
def mkSendState (spid stid cpid ctid : Nat) (slotsRest : List (Option WaitingMessage)) :
    KState :=
  { server := ⟨spid, [stid], [], 8, Option.none :: slotsRest⟩
    serverSid := 99
    serverCid := 1
    threads := [((spid, stid), .parkedT), ((cpid, ctid), .running)]
    results := []
    running := some (cpid, ctid)
    connections := []
    serverMapped := []
    clientMapped := []
    nextVirt := 0x80000000
    memOk := true
    ppid := 1
    switchtoCaller := Option.none }

/-- C2 amended: for every message delivered to a parked receiver, the sender
index of the delivered envelope is zero exactly when the message is non
blocking: BlockingScalar, Borrow and MutableBorrow get a fresh non zero
index, while Scalar AND the memory carrying Move are delivered with index
0. -/
theorem c2_sender_idx_iff_blocking (bm : Bool) (spid stid cpid ctid : Nat)
    (slotsRest : List (Option WaitingMessage)) (msg : Message)
    (hne : spid ≠ cpid) :
    ∀ env,
      envelopeDelivered
        (send_message bm cpid ctid 1 msg (mkSendState spid stid cpid ctid slotsRest)).1
        (send_message bm cpid ctid 1 msg (mkSendState spid stid cpid ctid slotsRest)).2
        spid stid = some env →
      ((env.sender.idx = 0) ↔ msg.is_blocking = false) := by
  intro env henv
  cases msg <;> cases bm <;>
    simp only [send_message, mkSendState, server_from_cid, translate_message,
      ss_send_memory, ss_lend_memory, take_available_thread, Message.is_blocking,
      remember_server_message, findFree, recordFor, ready_thread, alookup, aset,
      deliver_to_thread, switch_from_thread, switch_to_thread, set_thread_result,
      activate_process_thread, envelopeDelivered, Prod.mk.injEq, hne,
      Option.map, Option.getD, reduceIte, Bool.and_self, Bool.and_false,
      Bool.and_true, Bool.not_true, Bool.not_false, false_and, if_false,
      if_true] at henv ⊢ <;>
    (obtain rfl := Option.some.inj henv) <;> simp

/-- C2 witness: the amended theorem applied to a concrete blocking scalar
delivery, whose envelope carries the non zero sender index 1. -/
theorem c2_sender_idx_iff_blocking_witness :
    envelopeDelivered
      (send_message false 2 7 1 (.blockingScalar ⟨9, 1, 2, 3, 4⟩) (mkSendState 3 4 2 7 [])).1
      (send_message false 2 7 1 (.blockingScalar ⟨9, 1, 2, 3, 4⟩) (mkSendState 3 4 2 7 [])).2
      3 4 = some ⟨⟨1, 1⟩, .blockingScalar ⟨9, 1, 2, 3, 4⟩⟩ ∧
    (((⟨⟨1, 1⟩, .blockingScalar ⟨9, 1, 2, 3, 4⟩⟩ : MessageEnvelope).sender.idx = 0) ↔
      Message.is_blocking (.blockingScalar ⟨9, 1, 2, 3, 4⟩) = false) :=
  ⟨rfl, c2_sender_idx_iff_blocking false 3 4 2 7 [] (.blockingScalar ⟨9, 1, 2, 3, 4⟩)
      (by decide) ⟨⟨1, 1⟩, .blockingScalar ⟨9, 1, 2, 3, 4⟩⟩ rfl⟩

end XK
